import Mathlib

/-!
Verification of `deepLearningModelTraining/trainBallFieldSideModel.py`.

The script is a linear pipeline: generate `numSamples` random feature
vectors of dimension 69, zero every z coordinate (index ≡ 2 mod 3),
derive a binary label from the sign of the first coordinate, split both
arrays into training/validation/test slices, build a two layer dense
network, train it for a fixed number of epochs, evaluate and save.

The embedding below models the random source as an explicit function
`rng : Nat → Nat → ℚ`, giving the raw value drawn for entry `(i, j)`
of the data matrix; `np.random.uniform(-1.0, 1.0, ...)` is captured by
the hypothesis that every drawn value lies in `[-1, 1)`.  Floating
point values are modelled as rationals; the script only compares them
to 0 and assigns the constants 0.0 and 1.0, so no rounding behaviour is
involved in any claim.
-/

namespace BallFieldSide

/-- `numSamples = 1024 * 100` (line 27). -/
def numSamples : Nat := 1024 * 100

/-- `numTrainingSamples = 1024 * 80` (line 29). -/
def numTrainingSamples : Nat := 1024 * 80

/-- `numValidationSamples = 1024 * 10` (line 30). -/
def numValidationSamples : Nat := 1024 * 10

/-- `numTestSamples = 1024 * 10` (line 31). -/
def numTestSamples : Nat := 1024 * 10

/-- `numEpochs = 20` (line 34). -/
def numEpochs : Nat := 20

/-- `batchSize = 512` (line 35). -/
def batchSize : Nat := 512

/-- The feature dimension `(1 + 11 + 11) * 3` (lines 41 and 61). -/
def dim : Nat := (1 + 11 + 11) * 3

/-- Row `i` of the raw uniform draw `np.random.uniform(-1.0, 1.0,
(numSamples, dim))` (line 41), before the z columns are zeroed. -/
def rawRow (rng : Nat → Nat → ℚ) (i : Nat) : List ℚ :=
  (List.range dim).map (rng i)

/-- The raw data matrix of line 41, one row per sample. -/
def rawData (rng : Nat → Nat → ℚ) : List (List ℚ) :=
  (List.range numSamples).map (rawRow rng)

/-- The in-place update `data[:, 2::3] = 0.0` (line 42) acting on one
row: positions ≡ 2 (mod 3) become 0, all others keep their value. -/
def zeroZRow (v : List ℚ) : List ℚ :=
  (List.range v.length).map (fun p => if p % 3 = 2 then 0 else v.getD p 0)

/-- The `data` array after line 42: the raw draw with z columns zeroed. -/
def data (rng : Nat → Nat → ℚ) : List (List ℚ) :=
  (rawData rng).map zeroZRow

/-- The labelling rule of line 47 applied to one row:
`1.0 if d[0] >= 0 else 0.0`. -/
def label (d : List ℚ) : ℚ :=
  if 0 ≤ d.getD 0 0 then 1 else 0

/-- `targets = [1.0 if d[0] >= 0 else 0.0 for d in data]` (line 47). -/
def targets (rng : Nat → Nat → ℚ) : List ℚ :=
  (data rng).map label

/-- `training_data = data[:numTrainingSamples]` (line 50). -/
def training_data (rng : Nat → Nat → ℚ) : List (List ℚ) :=
  (data rng).take numTrainingSamples

/-- `training_targets = targets[:numTrainingSamples]` (line 51). -/
def training_targets (rng : Nat → Nat → ℚ) : List ℚ :=
  (targets rng).take numTrainingSamples

/-- `validation_data = data[numTrainingSamples:numTrainingSamples +
numValidationSamples]` (line 53). -/
def validation_data (rng : Nat → Nat → ℚ) : List (List ℚ) :=
  ((data rng).drop numTrainingSamples).take numValidationSamples

/-- `validation_targets` (line 54), same slice of `targets`. -/
def validation_targets (rng : Nat → Nat → ℚ) : List ℚ :=
  ((targets rng).drop numTrainingSamples).take numValidationSamples

/-- `test_data = data[numTrainingSamples + numValidationSamples:]`
(line 56): open ended from the split point to the end. -/
def test_data (rng : Nat → Nat → ℚ) : List (List ℚ) :=
  (data rng).drop (numTrainingSamples + numValidationSamples)

/-- `test_targets` (line 57), same slice of `targets`. -/
def test_targets (rng : Nat → Nat → ℚ) : List ℚ :=
  (targets rng).drop (numTrainingSamples + numValidationSamples)

/-- The six slices produced once the configuration assertion has
passed (lines 49-57). -/
structure SplitResult where
  trainingData : List (List ℚ)
  trainingTargets : List ℚ
  validationData : List (List ℚ)
  validationTargets : List ℚ
  testData : List (List ℚ)
  testTargets : List ℚ

/-- The guarded pipeline: the `assert` of line 32 runs before data
generation (line 41); when the slice sizes do not sum to `numSamples`
the script dies there, so no data, targets or slices are ever
computed — modelled by returning `none` without touching `data`.
Slice sizes are the parameters `t`, `v`, `te`. -/
def runPipeline (t v te : Nat) (rng : Nat → Nat → ℚ) : Option SplitResult :=
  if t + v + te = numSamples then
    some
      { trainingData := (data rng).take t
        trainingTargets := (targets rng).take t
        validationData := ((data rng).drop t).take v
        validationTargets := ((targets rng).drop t).take v
        testData := (data rng).drop (t + v)
        testTargets := (targets rng).drop (t + v) }
  else none

/-- Activation identifiers appearing in lines 61-62. -/
inductive Activation where
  | relu : Activation
  | sigmoid : Activation
  deriving DecidableEq

/-- One `layers.Dense(units, activation=...)` call. -/
structure DenseSpec where
  units : Nat
  activation : Activation
  deriving DecidableEq

/-- A `models.Sequential()` object: input shape, layer stack, and the
weight state it holds (randomly initialized at construction, so the
initial weights are a parameter of the constructor). -/
structure SequentialModel (W : Type) where
  inputShape : Nat
  layerSpecs : List DenseSpec
  weights : W

/-- Lines 60-62: `model = models.Sequential()`;
`model.add(layers.Dense(64, activation=relu, input_shape=(69,)))`;
`model.add(layers.Dense(1, activation=sigmoid))`.  Construction is a
pure function of the initial weights. -/
def buildModel {W : Type} (initWeights : W) : SequentialModel W :=
  { inputShape := dim
    layerSpecs := [⟨64, Activation.relu⟩, ⟨1, Activation.sigmoid⟩]
    weights := initWeights }

/-- Consecutive mini-batches of `batchSize` elements (the last one may
be shorter): how `model.fit` with `batch_size=batchSize` (line 70)
walks the training slice in each epoch. -/
def batchesOf {α : Type} : List α → List (List α)
  | [] => []
  | x :: xs => ((x :: xs).take batchSize) :: batchesOf (xs.drop (batchSize - 1))
termination_by l => l.length
decreasing_by
  simp [List.length_drop]
  omega

/-- One full pass over the training slice: fold the parameter-update
step over its mini-batches. -/
def fitEpoch {P S : Type} (step : P → List S → P) (train : List S) (p : P) : P :=
  (batchesOf train).foldl step p

/-- The epoch loop of `model.fit` (line 70): run `e` full passes over
the training slice; after each pass, evaluate the monitoring metric on
the validation slice and log it.  Returns the final parameters and the
per-epoch validation log.  The metric value is recorded but never fed
back into the parameters. -/
def fitLoop {P S : Type} (step : P → List S → P) (metric : P → List S → ℚ)
    (train val : List S) : Nat → P → P × List ℚ
  | 0, p => (p, [])
  | e + 1, p =>
    let p' := fitEpoch step train p
    let out := fitLoop step metric train val e p'
    (out.1, metric p' val :: out.2)

/-- `model.fit(training_data, training_targets, epochs=numEpochs,
batch_size=batchSize, validation_data=(validation_data,
validation_targets))` (line 70), abstract in the parameter type, the
gradient/update step and the monitoring metric. -/
def fit {P : Type} (step : P → List (List ℚ × ℚ) → P)
    (metric : P → List (List ℚ × ℚ) → ℚ) (rng : Nat → Nat → ℚ) (p0 : P) :
    P × List ℚ :=
  fitLoop step metric ((training_data rng).zip (training_targets rng))
    ((validation_data rng).zip (validation_targets rng)) numEpochs p0

/-- Indexing a mapped list inside its range ignores the defaults. -/
lemma getD_map_lt {α β : Type} (f : α → β) (l : List α) (i : Nat)
    (h : i < l.length) (d : β) (e : α) :
    (l.map f).getD i d = f (l.getD i e) := by
  rw [List.getD_eq_getElem?_getD, List.getElem?_map,
    List.getElem?_eq_getElem h, List.getD_eq_getElem?_getD,
    List.getElem?_eq_getElem h]
  rfl

/-- Indexing `(List.range n).map f` inside its range gives `f i`. -/
lemma getD_range_map {α : Type} (f : Nat → α) (n i : Nat) (h : i < n) (d : α) :
    ((List.range n).map f).getD i d = f i := by
  rw [List.getD_eq_getElem?_getD, List.getElem?_map, List.getElem?_range h]
  rfl

lemma length_rawRow (rng : Nat → Nat → ℚ) (i : Nat) :
    (rawRow rng i).length = dim := by
  simp [rawRow]

lemma length_rawData (rng : Nat → Nat → ℚ) :
    (rawData rng).length = numSamples := by
  simp [rawData]

lemma length_zeroZRow (v : List ℚ) : (zeroZRow v).length = v.length := by
  simp [zeroZRow]

lemma length_data (rng : Nat → Nat → ℚ) : (data rng).length = numSamples := by
  simp [data, length_rawData]

lemma length_targets (rng : Nat → Nat → ℚ) :
    (targets rng).length = numSamples := by
  simp [targets, length_data]

lemma rawRow_getD (rng : Nat → Nat → ℚ) (i p : Nat) (h : p < dim) :
    (rawRow rng i).getD p 0 = rng i p :=
  getD_range_map (rng i) dim p h 0

lemma rawData_getD (rng : Nat → Nat → ℚ) (i : Nat) (h : i < numSamples) :
    (rawData rng).getD i [] = rawRow rng i :=
  getD_range_map (rawRow rng) numSamples i h []

lemma zeroZRow_getD (v : List ℚ) (p : Nat) (h : p < v.length) :
    (zeroZRow v).getD p 0 = if p % 3 = 2 then 0 else v.getD p 0 :=
  getD_range_map _ v.length p h 0

lemma data_getD (rng : Nat → Nat → ℚ) (i : Nat) (h : i < numSamples) :
    (data rng).getD i [] = zeroZRow (rawRow rng i) := by
  rw [data, getD_map_lt zeroZRow (rawData rng) i (by rw [length_rawData]; exact h) [] [],
    rawData_getD rng i h]

lemma targets_getD (rng : Nat → Nat → ℚ) (i : Nat) (h : i < numSamples) :
    (targets rng).getD i 0 = label ((data rng).getD i []) := by
  rw [targets, getD_map_lt label (data rng) i (by rw [length_data]; exact h) 0 []]

lemma zeroZRow_getD_zero (v : List ℚ) : (zeroZRow v).getD 0 0 = v.getD 0 0 := by
  cases v with
  | nil => simp [zeroZRow]
  | cons x xs =>
    rw [zeroZRow_getD (x :: xs) 0 (by simp)]
    norm_num

lemma label_zeroZRow (v : List ℚ) : label (zeroZRow v) = label v := by
  unfold label
  rw [zeroZRow_getD_zero]

lemma take_mid_drop {α : Type} (l : List α) (n m : Nat) :
    l.take n ++ (l.drop n).take m ++ l.drop (n + m) = l := by
  rw [List.append_assoc]
  have h : l.drop (n + m) = (l.drop n).drop m := (List.drop_drop m n l).symm
  rw [h, List.take_append_drop, List.take_append_drop]

lemma length_training_data (rng : Nat → Nat → ℚ) :
    (training_data rng).length = numTrainingSamples := by
  rw [training_data, List.length_take, length_data]
  simp only [numTrainingSamples, numSamples]
  omega

lemma batchesOf_flatten_aux {α : Type} :
    ∀ (n : Nat) (l : List α), l.length ≤ n → (batchesOf l).flatten = l := by
  intro n
  induction n with
  | zero =>
    intro l h
    have hl : l = [] := by
      cases l with
      | nil => rfl
      | cons x xs => simp at h
    subst hl
    simp [batchesOf]
  | succ n ih =>
    intro l h
    match l with
    | [] => simp [batchesOf]
    | x :: xs =>
      rw [batchesOf, List.flatten_cons,
        ih (xs.drop (batchSize - 1)) (by simp [List.length_drop] at h ⊢; omega)]
      have hdrop : xs.drop (batchSize - 1) = (x :: xs).drop batchSize := by
        have hb : batchSize = (batchSize - 1) + 1 := by norm_num [batchSize]
        conv_rhs => rw [hb]
        rw [List.drop_succ_cons]
      rw [hdrop, List.take_append_drop]

lemma batchesOf_flatten {α : Type} (l : List α) : (batchesOf l).flatten = l :=
  batchesOf_flatten_aux l.length l le_rfl

lemma batchesOf_getD_le_aux {α : Type} :
    ∀ (n : Nat) (l : List α), l.length ≤ n →
      ∀ k, ((batchesOf l).getD k []).length ≤ batchSize := by
  intro n
  induction n with
  | zero =>
    intro l h k
    have hl : l = [] := by
      cases l with
      | nil => rfl
      | cons x xs => simp at h
    subst hl
    simp [batchesOf]
  | succ n ih =>
    intro l h k
    match l with
    | [] => simp [batchesOf]
    | x :: xs =>
      rw [batchesOf]
      match k with
      | 0 => simp [List.length_take]
      | k + 1 =>
        simp only [List.getD_cons_succ]
        exact ih (xs.drop (batchSize - 1))
          (by simp [List.length_drop] at h ⊢; omega) k

lemma batchesOf_getD_le {α : Type} (l : List α) (k : Nat) :
    ((batchesOf l).getD k []).length ≤ batchSize :=
  batchesOf_getD_le_aux l.length l le_rfl k

lemma fitLoop_snd_length {P S : Type} (step : P → List S → P)
    (metric : P → List S → ℚ) (train val : List S) :
    ∀ (e : Nat) (p : P), (fitLoop step metric train val e p).2.length = e := by
  intro e
  induction e with
  | zero => intro p; rfl
  | succ e ih => intro p; simp [fitLoop, ih]

lemma fitLoop_fst_ext {P S : Type} (step : P → List S → P)
    (m m' : P → List S → ℚ) (train val val' : List S) :
    ∀ (e : Nat) (p : P),
      (fitLoop step m train val e p).1 = (fitLoop step m' train val' e p).1 := by
  intro e
  induction e with
  | zero => intro p; rfl
  | succ e ih => intro p; simp [fitLoop, ih]

/-- C1: the targets array is parallel to the data array (one label per
row); the i-th label is the labelling rule applied to the i-th row;
that rule yields exactly 1 iff the row's first coordinate is ≥ 0 and
exactly 0 otherwise; and the rule is a pure function of coordinate 0
alone. -/
theorem C1_labels_match_sign (rng : Nat → Nat → ℚ) (i : Nat)
    (hi : i < numSamples) :
    (targets rng).length = (data rng).length ∧
    (targets rng).getD i 0 = label ((data rng).getD i []) ∧
    (label ((data rng).getD i []) = 1 ↔ 0 ≤ ((data rng).getD i []).getD 0 0) ∧
    (label ((data rng).getD i []) = 0 ↔ ¬ 0 ≤ ((data rng).getD i []).getD 0 0) ∧
    (∀ v w : List ℚ, v.getD 0 0 = w.getD 0 0 → label v = label w) := by
  refine ⟨by rw [length_targets, length_data], targets_getD rng i hi, ?_, ?_, ?_⟩
  · by_cases h : 0 ≤ ((data rng).getD i []).getD 0 0 <;> simp [label, h]
  · by_cases h : 0 ≤ ((data rng).getD i []).getD 0 0 <;> simp [label, h]
  · intro v w hvw
    unfold label
    rw [hvw]

/-- Witness for C1: the claim instantiated at the all-zero random
source and row 0. -/
theorem C1_labels_match_sign_witness :
    0 < numSamples ∧
    (targets (fun _ _ => 0)).getD 0 0 = label ((data (fun _ _ => 0)).getD 0 []) :=
  ⟨by norm_num [numSamples],
    (C1_labels_match_sign (fun _ _ => 0) 0 (by norm_num [numSamples])).2.1⟩

/-- C2: right after generation, in every row every 0-indexed position
≡ 2 (mod 3) holds exactly 0, and every other position holds its raw
uniform draw, hence a value in [-1, 1). -/
theorem C2_z_zero_rest_in_range (rng : Nat → Nat → ℚ)
    (hr : ∀ i j, -1 ≤ rng i j ∧ rng i j < 1) (i p : Nat)
    (hi : i < numSamples) (hp : p < dim) :
    (p % 3 = 2 → ((data rng).getD i []).getD p 0 = 0) ∧
    (p % 3 ≠ 2 →
      -1 ≤ ((data rng).getD i []).getD p 0 ∧
        ((data rng).getD i []).getD p 0 < 1) := by
  rw [data_getD rng i hi,
    zeroZRow_getD (rawRow rng i) p (by rw [length_rawRow]; exact hp)]
  constructor
  · intro h2
    rw [if_pos h2]
  · intro h2
    rw [if_neg h2, rawRow_getD rng i p hp]
    exact hr i p

/-- Witness for C2: the claim instantiated at the all-zero random
source, row 0, position 0 (a non-z position). -/
theorem C2_z_zero_rest_in_range_witness :
    0 < numSamples ∧ 0 < dim ∧ (0 : Nat) % 3 ≠ 2 ∧
    (-1 ≤ ((data (fun _ _ => 0)).getD 0 []).getD 0 0 ∧
      ((data (fun _ _ => 0)).getD 0 []).getD 0 0 < 1) :=
  ⟨by norm_num [numSamples], by norm_num [dim], by decide,
    (C2_z_zero_rest_in_range (fun _ _ => 0)
      (fun i j => ⟨by norm_num, by norm_num⟩) 0 0
      (by norm_num [numSamples]) (by norm_num [dim])).2 (by decide)⟩

/-- C3: the guarded pipeline produces a result iff the three slice
sizes sum to `numSamples`; when they do not, it aborts before any data
generation (returns `none`, no slices computed); with the script's
constants the guard passes and the six slices are produced. -/
theorem C3_assert_guard (t v te : Nat) (rng : Nat → Nat → ℚ) :
    ((runPipeline t v te rng).isSome = true ↔ t + v + te = numSamples) ∧
    runPipeline numTrainingSamples numValidationSamples numTestSamples rng =
      some ⟨training_data rng, training_targets rng, validation_data rng,
        validation_targets rng, test_data rng, test_targets rng⟩ := by
  constructor
  · unfold runPipeline
    split <;> simp_all
  · unfold runPipeline
    rw [if_pos (by norm_num [numTrainingSamples, numValidationSamples,
      numTestSamples, numSamples])]
    rfl

/-- C4 as stated is false at the all-zero random source: the training
slice has numTrainingSamples = 1024 * 80 = 81920 elements, not
80980. -/
theorem C4_slice_sizes_counterexample :
    ¬ (training_data (fun _ _ => 0)).length = 80980 := by
  intro h
  have h1 := length_training_data (fun _ _ => (0 : ℚ))
  rw [h] at h1
  norm_num [numTrainingSamples] at h1

/-- C4 (amended): the splitter partitions data and targets into a
training slice of exactly 81920 elements, a validation slice of
exactly 10240 elements and a test slice of exactly 10240 elements,
taken in that fixed order. -/
theorem C4_slice_sizes (rng : Nat → Nat → ℚ) :
    (training_data rng).length = 81920 ∧
    (training_targets rng).length = 81920 ∧
    (validation_data rng).length = 10240 ∧
    (validation_targets rng).length = 10240 ∧
    (test_data rng).length = 10240 ∧
    (test_targets rng).length = 10240 := by
  refine ⟨?_, ?_, ?_, ?_, ?_, ?_⟩ <;>
    norm_num [training_data, training_targets, validation_data,
      validation_targets, test_data, test_targets, List.length_take,
      List.length_drop, length_data, length_targets, numTrainingSamples,
      numValidationSamples, numSamples]

/-- C5: the three slices are contiguous, order-preserving and
pairwise disjoint, and cover everything exactly once: concatenating
them in the order training → validation → test yields back the
original data array and the original targets array. -/
theorem C5_slices_partition (rng : Nat → Nat → ℚ) :
    training_data rng ++ validation_data rng ++ test_data rng = data rng ∧
    training_targets rng ++ validation_targets rng ++ test_targets rng =
      targets rng := by
  refine ⟨?_, ?_⟩
  · simp only [training_data, validation_data, test_data]
    exact take_mid_drop (data rng) numTrainingSamples numValidationSamples
  · simp only [training_targets, validation_targets, test_targets]
    exact take_mid_drop (targets rng) numTrainingSamples numValidationSamples

/-- C6: generation and labelling are deterministic in the random
source: two runs fed pointwise-equal random draws produce identical
data arrays and identical target arrays. -/
theorem C6_deterministic_in_rng (r₁ r₂ : Nat → Nat → ℚ)
    (h : ∀ i j, r₁ i j = r₂ i j) :
    data r₁ = data r₂ ∧ targets r₁ = targets r₂ := by
  have hr : r₁ = r₂ := funext fun i => funext fun j => h i j
  subst hr
  exact ⟨rfl, rfl⟩

/-- Witness for C6: two syntactically distinct but pointwise-equal
random sources give identical data arrays. -/
theorem C6_deterministic_in_rng_witness :
    data (fun _ _ => 0) = data (fun _ j => 0 * (j : ℚ)) :=
  (C6_deterministic_in_rng (fun _ _ => 0) (fun _ j => 0 * (j : ℚ))
    (fun i j => by ring)).1

/-- C7: construction yields exactly a two-layer network — Dense(64,
relu) over the 69-dimensional input, then Dense(1, sigmoid) — and is a
pure one-shot function whose only product is the object holding the
supplied initial weights. -/
theorem C7_model_architecture {W : Type} (w : W) :
    (buildModel w).layerSpecs =
      [⟨64, Activation.relu⟩, ⟨1, Activation.sigmoid⟩] ∧
    (buildModel w).layerSpecs.length = 2 ∧
    (buildModel w).inputShape = 69 ∧
    (buildModel w).weights = w := by
  refine ⟨rfl, rfl, ?_, rfl⟩
  norm_num [buildModel, dim]

/-- C8: the training loop runs exactly numEpochs = 20 full passes
(one validation log entry per epoch, no early stopping); the final
parameters do not depend on the validation slice or the monitoring
metric; every mini-batch has at most batchSize = 512 elements; and
each pass covers the training slice exactly (the batches concatenate
back to it). -/
theorem C8_training_loop {P : Type} (step : P → List (List ℚ × ℚ) → P)
    (metric metricAlt : P → List (List ℚ × ℚ) → ℚ) (rng : Nat → Nat → ℚ)
    (p0 : P) (valAlt : List (List ℚ × ℚ)) :
    (fit step metric rng p0).2.length = numEpochs ∧
    numEpochs = 20 ∧ batchSize = 512 ∧
    (fit step metric rng p0).1 =
      (fitLoop step metricAlt ((training_data rng).zip (training_targets rng))
        valAlt numEpochs p0).1 ∧
    (∀ k : Nat,
      ((batchesOf ((training_data rng).zip
        (training_targets rng))).getD k []).length ≤ batchSize) ∧
    (batchesOf ((training_data rng).zip (training_targets rng))).flatten =
      (training_data rng).zip (training_targets rng) := by
  refine ⟨?_, rfl, rfl, ?_, ?_, ?_⟩
  · rw [fit]
    exact fitLoop_snd_length step metric _ _ numEpochs p0
  · rw [fit]
    exact fitLoop_fst_ext step metric metricAlt _ _ valAlt numEpochs p0
  · intro k
    exact batchesOf_getD_le _ k
  · exact batchesOf_flatten _

/-- C9: the test slice is open-ended, so its length is
numSamples − (numTrainingSamples + numValidationSamples); under the
slice-sum assertion (t + v + te = numSamples) the open-ended slice at
split point t + v has exactly te elements, and with the script's
constants the evaluated test slice has exactly numTestSamples
elements, matching the printed count. -/
theorem C9_test_count_matches (rng : Nat → Nat → ℚ) (t v te : Nat)
    (hsum : t + v + te = numSamples) :
    ((data rng).drop (t + v)).length = te ∧
    (test_data rng).length =
      numSamples - (numTrainingSamples + numValidationSamples) ∧
    (test_data rng).length = numTestSamples := by
  refine ⟨?_, ?_, ?_⟩
  · rw [List.length_drop, length_data]
    omega
  · simp only [test_data, List.length_drop, length_data]
  · norm_num [test_data, List.length_drop, length_data, numTrainingSamples,
      numValidationSamples, numTestSamples, numSamples]

/-- Witness for C9: the claim instantiated at the script's constants,
whose sum is numSamples, at the all-zero random source. -/
theorem C9_test_count_matches_witness :
    numTrainingSamples + numValidationSamples + numTestSamples = numSamples ∧
    ((data (fun _ _ => 0)).drop
      (numTrainingSamples + numValidationSamples)).length = numTestSamples :=
  ⟨by norm_num [numTrainingSamples, numValidationSamples, numTestSamples,
      numSamples],
    (C9_test_count_matches (fun _ _ => 0) numTrainingSamples
      numValidationSamples numTestSamples
      (by norm_num [numTrainingSamples, numValidationSamples, numTestSamples,
        numSamples])).1⟩

/-- C10: the z-zeroing step is a frame: any position not ≡ 2 (mod 3)
is unchanged, in particular position 0, so the label computed after
zeroing equals the label of the raw row — each target is the sign
label of the originally generated first coordinate. -/
theorem C10_zeroing_frame (v : List ℚ) (p : Nat) (hp : p < v.length)
    (hm : p % 3 ≠ 2) :
    (zeroZRow v).getD p 0 = v.getD p 0 ∧
    (zeroZRow v).getD 0 0 = v.getD 0 0 ∧
    label (zeroZRow v) = label v ∧
    (∀ (rng : Nat → Nat → ℚ) (i : Nat), i < numSamples →
      (targets rng).getD i 0 =
        if 0 ≤ (rawRow rng i).getD 0 0 then 1 else 0) := by
  refine ⟨?_, zeroZRow_getD_zero v, label_zeroZRow v, ?_⟩
  · rw [zeroZRow_getD v p hp, if_neg hm]
  · intro rng i hi
    rw [targets_getD rng i hi, data_getD rng i hi, label_zeroZRow]
    rfl

/-- Witness for C10: the claim instantiated at the one-element row
[5] and position 0 (not a z position). -/
theorem C10_zeroing_frame_witness :
    (0 < ([5] : List ℚ).length ∧ (0 : Nat) % 3 ≠ 2) ∧
    (zeroZRow [5]).getD 0 0 = ([5] : List ℚ).getD 0 0 :=
  ⟨⟨by decide, by decide⟩,
    (C10_zeroing_frame [5] 0 (by decide) (by decide)).1⟩

end BallFieldSide
